import Mathlib

/-!
Shallow embedding of the order/payment lifecycle of the e-commerce backend
(`src/unnamed/part_002`): the `POST /placeorder`, `POST /create-cashfree-order`,
`POST /verify-payment` and `PUT /admin/orders/:id` route handlers, together
with the Mongo-backed order store they read and write.

Modelling decisions, each traceable to the source:
- JS numbers on line items (`price`, `quantity`) and `totalAmount` are modelled
  as `Int`: the catalogue uses integral rupee amounts and the claims quantify
  over zero and negative values, which `Int` represents exactly.
- The Mongo collection of orders is an association list from ids to order
  documents; `findById` returns the first binding (Mongo ids are unique) and
  `findByIdAndUpdate` rewrites the bindings for the id and is a silent no-op
  when the id is absent, exactly as Mongoose behaves.
- `req.user` (set by the `authenticateToken` middleware from the JWT payload,
  lines 121-131 and 429-433) is passed to every handler as an `AuthUser`.
- The external Cashfree gateway is a parameter: for session creation a function
  from the posted payload to a response or an axios-style error, for
  verification a function from the queried order id to a status response.
- `Date` fields (`createdAt`, product `date`) are omitted: no modelled
  operation reads them.
-/

/-- `paymentMethod` enum of the order schema (line 71-75). -/
inductive PaymentMethod where
  | COD
  | ONLINE
deriving DecidableEq, Repr

/-- `paymentStatus` enum of the order schema (line 76-80). -/
inductive PaymentStatus where
  | PENDING
  | PAID
deriving DecidableEq, Repr

/-- A line item of an order (order schema lines 53-61). -/
structure OrderItem where
  productId : Nat
  name : String
  quantity : Int
  price : Int
  image : String
deriving DecidableEq, Repr

/-- `shippingAddress` subdocument (lines 63-70). `phone` is `Option String`
because the document field may be absent. -/
structure Address where
  name : String
  address : String
  city : String
  state : String
  zip : String
  phone : Option String
deriving DecidableEq, Repr

/-- An order document (schema lines 51-83). `status` is the free-form
fulfillment status, default "Processing". -/
structure Order where
  userEmail : String
  items : List OrderItem
  totalAmount : Int
  shippingAddress : Address
  paymentMethod : PaymentMethod
  paymentStatus : PaymentStatus
  status : String
deriving DecidableEq, Repr

/-- A product document (schema lines 36-45), present only so that the database
carries the product collection the handlers could have consulted. -/
structure Product where
  id : Nat
  name : String
  images : List String
  category : String
  new_price : Int
  old_price : Int
  available : Bool
deriving DecidableEq, Repr

/-- Mongo `_id` of an order document. -/
abbrev OrderId := Nat

/-- The order collection: Mongo documents keyed by `_id`. -/
abbrev OrderStore := List (OrderId × Order)

/-- The database state visible to the handlers. -/
structure DB where
  products : List Product
  orders : OrderStore
deriving DecidableEq, Repr

/-- `Order.findById`: Mongo ids are unique, so the first binding is the
document. -/
def findById (s : OrderStore) (oid : OrderId) : Option Order :=
  (s.find? (fun p => p.1 == oid)).map (fun p => p.2)

/-- `Order.findByIdAndUpdate(oid, …)`: rewrites the document bound to `oid`
with `f`; a silent no-op when no document has that id. -/
def findByIdAndUpdate (s : OrderStore) (oid : OrderId) (f : Order → Order) :
    OrderStore :=
  s.map (fun p => if p.1 == oid then (p.1, f p.2) else p)

/-- The JWT payload `req.user` made available by `authenticateToken`
(lines 121-131; signed at lines 429-433). -/
structure AuthUser where
  username : String
  email : String
  role : String
deriving DecidableEq, Repr

/-- Request body of `POST /placeorder`. The handler destructures only
`items`, `address` and `paymentMethod` (line 231); `clientTotal` stands for a
caller-supplied total field that the handler never reads. `items` is `none`
when the field is absent; `paymentMethod` is `none` when absent or not one of
the schema's enum values. -/
structure PlaceOrderBody where
  items : Option (List OrderItem)
  address : Address
  paymentMethod : Option PaymentMethod
  clientTotal : Option Int
deriving DecidableEq, Repr

/-- The two 400-responses of `POST /placeorder` (lines 234-240). -/
inductive PlaceOrderErr where
  | noItems
  | paymentMethodRequired
deriving DecidableEq, Repr

/-- `items.reduce((sum, item) => sum + item.price * item.quantity, 0)`
(lines 242-245). -/
def itemsTotal (items : List OrderItem) : Int :=
  items.foldl (fun sum item => sum + item.price * item.quantity) 0

/-- `POST /placeorder` (lines 229-270): validates the body, computes
`totalAmount` server-side, builds the new order document — with the source's
ternary `paymentMethod === "COD" ? "PENDING" : "PENDING"` (line 253) — and
saves it under the fresh Mongo id `freshId`. Returns the updated database and
the persisted order. -/
def placeOrder (db : DB) (freshId : OrderId) (user : AuthUser)
    (body : PlaceOrderBody) : Except PlaceOrderErr (DB × Order) :=
  match body.items with
  | none => .error .noItems
  | some items =>
    if items.isEmpty then .error .noItems
    else
      match body.paymentMethod with
      | none => .error .paymentMethodRequired
      | some pm =>
        let totalAmount := itemsTotal items
        let newOrder : Order :=
          { userEmail := user.email
            items := items
            totalAmount := totalAmount
            shippingAddress := body.address
            paymentMethod := pm
            paymentStatus :=
              if pm = PaymentMethod.COD then PaymentStatus.PENDING
              else PaymentStatus.PENDING
            status := "Processing" }
        .ok ({ db with orders := db.orders ++ [(freshId, newOrder)] }, newOrder)

/-- The `data` object of a Cashfree response to `POST /checkout/orders`; the
handler reads `payment_session_id` (possibly absent, line 309) and `order_id`
(line 320). -/
structure CFData where
  payment_session_id : Option String
  order_id : Option String
deriving DecidableEq, Repr

/-- Outcome of the axios call `pgAxios.post("/checkout/orders", payload)`
(line 307): either a resolved response carrying `data`, or a rejection whose
`err.response` — when present — carries the upstream HTTP status and body. -/
inductive GWResult where
  | resp (data : CFData)
  | err (status : Option Nat) (data : Option CFData)
deriving DecidableEq, Repr

/-- The payload posted to the gateway (lines 292-304). -/
structure CFPayload where
  order_id : OrderId
  order_amount : String
  order_currency : String
  customer_id : String
  customer_email : String
  customer_phone : String
  return_url : String
deriving DecidableEq, Repr

/-- `Number(order.totalAmount).toFixed(2)` (line 294) on an integral amount. -/
def toFixed2 (n : Int) : String := toString n ++ ".00"

/-- The caller-visible outcome of `POST /create-cashfree-order`:
404 "Order not found" (line 279), 400 "Invalid payment method" (line 283),
400 "Invalid phone number" (line 289), 500 "Failed to create Cashfree payment
session" with the raw gateway data (lines 310-314), the catch-all 500 carrying
`err.response?.data` as `cashfreeError` (lines 328-331), or the 200 success
body (lines 317-321). -/
inductive CPSResult where
  | notFound
  | invalidMethod
  | invalidPhone
  | gatewayNoSession (raw : CFData)
  | gatewayError (cashfreeError : Option CFData)
  | ok (payment_session_id : String) (order_id : Option String)
deriving DecidableEq, Repr

/-- The truthiness test `!order.shippingAddress.phone` (line 288): true when
the field is absent or the empty string. -/
def phoneFalsy (p : Option String) : Bool :=
  match p with
  | none => true
  | some s => s == ""

/-- The payload built at lines 292-304 for the order `order` stored under
`orderId`. -/
def cfPayloadFor (frontendUrl : String) (orderId : OrderId) (order : Order) :
    CFPayload :=
  { order_id := orderId
    order_amount := toFixed2 order.totalAmount
    order_currency := "INR"
    customer_id := order.userEmail
    customer_email := order.userEmail
    customer_phone := order.shippingAddress.phone.getD ""
    return_url :=
      frontendUrl ++ "/payment-success?order_id=" ++ toString orderId }

/-- `POST /create-cashfree-order` (lines 273-334). `gw` is the external
gateway; `frontendUrl` is `process.env.FRONTEND_URL`. Besides the database
(which the handler never writes) and the result, the returned list records
every payload posted to the gateway, in order. -/
def createPaymentSession (db : DB) (frontendUrl : String)
    (gw : CFPayload → GWResult) (user : AuthUser) (orderId : OrderId) :
    DB × CPSResult × List CFPayload :=
  match findById db.orders orderId with
  | none => (db, .notFound, [])
  | some order =>
    if order.paymentMethod ≠ PaymentMethod.ONLINE then
      (db, .invalidMethod, [])
    else if phoneFalsy order.shippingAddress.phone
        ∨ (order.shippingAddress.phone.getD "").length ≠ 10 then
      (db, .invalidPhone, [])
    else
      let payload := cfPayloadFor frontendUrl orderId order
      match gw payload with
      | .err _ data => (db, .gatewayError data, [payload])
      | .resp data =>
        match data.payment_session_id with
        | none => (db, .gatewayNoSession data, [payload])
        | some sid => (db, .ok sid data.order_id, [payload])

/-- Outcome of `pgAxios.get("/orders/" + orderId)` (line 344): a resolved
response whose `data.order_status` may be absent, or a rejection. -/
inductive VPGateway where
  | resp (order_status : Option String)
  | err
deriving DecidableEq, Repr

/-- The caller-visible outcome of `POST /verify-payment`: 200 `{success:true}`
(line 352), 200 `{success:false}` (line 355), or the catch-all 500
`{success:false}` (line 358). -/
inductive VPResult where
  | confirmed
  | notConfirmed
  | error
deriving DecidableEq, Repr

/-- `POST /verify-payment` (lines 340-360): queries the gateway for the order
status; on `"PAID"` updates the stored order's `paymentStatus` and `status`
(a silent no-op when the id is absent from the store) and reports success;
on any other status reports failure without touching the store. -/
def verifyPayment (db : DB) (gw : OrderId → VPGateway) (user : AuthUser)
    (orderId : OrderId) : DB × VPResult :=
  match gw orderId with
  | .err => (db, .error)
  | .resp order_status =>
    if order_status = some "PAID" then
      ({ db with
          orders := findByIdAndUpdate db.orders orderId (fun o =>
            { o with paymentStatus := PaymentStatus.PAID
                     status := "Confirmed" }) },
        .confirmed)
    else
      (db, .notConfirmed)

/-- `PUT /admin/orders/:id` (lines 384-393), with the `requireAdmin` gate
(lines 133-138) in front: an admin caller overwrites the order's free-form
`status`; a non-admin caller is rejected (403) and the store is untouched.
The boolean reports whether the update was performed. -/
def updateFulfillmentStatus (db : DB) (user : AuthUser) (orderId : OrderId)
    (newStatus : String) : DB × Bool :=
  if user.role == "admin" then
    ({ db with
        orders := findByIdAndUpdate db.orders orderId (fun o =>
          { o with status := newStatus }) },
      true)
  else
    (db, false)

/-- One invocation of a lifecycle operation, carrying everything outside the
database that the handler consumes: request data, caller, fresh Mongo id, and
the gateway's behaviour during the call. -/
inductive Op where
  | place (freshId : OrderId) (user : AuthUser) (body : PlaceOrderBody)
  | createSession (frontendUrl : String) (gw : CFPayload → GWResult)
      (user : AuthUser) (orderId : OrderId)
  | verify (gw : OrderId → VPGateway) (user : AuthUser) (orderId : OrderId)
  | updateStatus (user : AuthUser) (orderId : OrderId) (newStatus : String)

/-- The database after one operation (a failed `placeOrder` leaves it
unchanged). -/
def step (db : DB) : Op → DB
  | .place freshId user body =>
    match placeOrder db freshId user body with
    | .ok (db', _) => db'
    | .error _ => db
  | .createSession frontendUrl gw user orderId =>
    (createPaymentSession db frontendUrl gw user orderId).1
  | .verify gw user orderId => (verifyPayment db gw user orderId).1
  | .updateStatus user orderId newStatus =>
    (updateFulfillmentStatus db user orderId newStatus).1

/-- The database after a sequence of operations. -/
def run (db : DB) : List Op → DB
  | [] => db
  | op :: ops => run (step db op) ops

/-! ### Store lemmas -/

theorem findById_cons (k : OrderId) (v : Order) (tl : OrderStore)
    (oid : OrderId) :
    findById ((k, v) :: tl) oid = if k = oid then some v else findById tl oid := by
  rcases Decidable.em (k = oid) with hk | hk
  · unfold findById
    rw [List.find?_cons_of_pos _ (by simpa using hk), if_pos hk]
    rfl
  · unfold findById
    rw [List.find?_cons_of_neg _ (by simpa using hk), if_neg hk]

theorem findByIdAndUpdate_cons (k : OrderId) (v : Order) (tl : OrderStore)
    (oid : OrderId) (f : Order → Order) :
    findByIdAndUpdate ((k, v) :: tl) oid f =
      (if k = oid then (k, f v) else (k, v)) :: findByIdAndUpdate tl oid f := by
  by_cases hk : k = oid <;> simp [findByIdAndUpdate, hk]

theorem findById_update (s : OrderStore) (oid oid' : OrderId)
    (f : Order → Order) :
    findById (findByIdAndUpdate s oid f) oid' =
      if oid' = oid then (findById s oid').map f else findById s oid' := by
  induction s with
  | nil =>
    by_cases h : oid' = oid <;> simp [findById, findByIdAndUpdate, h]
  | cons hd tl ih =>
    obtain ⟨k, v⟩ := hd
    rw [findByIdAndUpdate_cons]
    by_cases hk : k = oid
    · subst hk
      by_cases h' : k = oid'
      · subst h'
        simp [findById_cons]
      · simp [findById_cons, h', ih, Ne.symm h']
    · by_cases h' : k = oid'
      · subst h'
        simp [findById_cons, hk]
      · simp [findById_cons, hk, h', ih]

theorem findById_update_none (s : OrderStore) (oid : OrderId)
    (f : Order → Order) (h : findById s oid = none) :
    findByIdAndUpdate s oid f = s := by
  induction s with
  | nil => rfl
  | cons hd tl ih =>
    obtain ⟨k, v⟩ := hd
    rw [findById_cons] at h
    by_cases hk : k = oid
    · rw [if_pos hk] at h; exact absurd h (by simp)
    · rw [if_neg hk] at h
      rw [findByIdAndUpdate_cons, if_neg hk, ih h]

theorem findById_append_left (s l : OrderStore) (oid : OrderId) (o : Order)
    (h : findById s oid = some o) : findById (s ++ l) oid = some o := by
  induction s with
  | nil => simp [findById] at h
  | cons hd tl ih =>
    obtain ⟨k, v⟩ := hd
    rw [findById_cons] at h
    rw [List.cons_append, findById_cons]
    by_cases hk : k = oid
    · rwa [if_pos hk] at h ⊢
    · rw [if_neg hk] at h ⊢
      exact ih h

/-! ### Handler lemmas -/

theorem placeOrder_ok_shape (db : DB) (freshId : OrderId) (user : AuthUser)
    (body : PlaceOrderBody) (db' : DB) (o : Order)
    (h : placeOrder db freshId user body = .ok (db', o)) :
    db' = { db with orders := db.orders ++ [(freshId, o)] } := by
  unfold placeOrder at h
  split at h
  · exact absurd h (by simp)
  · split at h
    · exact absurd h (by simp)
    · split at h
      · exact absurd h (by simp)
      · simp only [Except.ok.injEq, Prod.mk.injEq] at h
        obtain ⟨h1, h2⟩ := h
        subst h2
        exact h1.symm

/-- The session-creation handler never writes the database: every branch of
`POST /create-cashfree-order` returns the store it was given. -/
theorem createPaymentSession_fst (db : DB) (frontendUrl : String)
    (gw : CFPayload → GWResult) (user : AuthUser) (orderId : OrderId) :
    (createPaymentSession db frontendUrl gw user orderId).1 = db := by
  unfold createPaymentSession
  split
  · rfl
  · rename_i order heq
    split
    · rfl
    · split
      · rfl
      · cases hgw : gw (cfPayloadFor frontendUrl orderId order) with
        | err status data => simp [hgw]
        | resp data =>
          cases hsid : data.payment_session_id <;> simp [hgw, hsid]

/-- The session-creation handler posts at most one payload to the gateway. -/
theorem createPaymentSession_calls_le_one (db : DB) (frontendUrl : String)
    (gw : CFPayload → GWResult) (user : AuthUser) (orderId : OrderId) :
    (createPaymentSession db frontendUrl gw user orderId).2.2.length ≤ 1 := by
  unfold createPaymentSession
  split
  · simp
  · rename_i order heq
    split
    · simp
    · split
      · simp
      · cases hgw : gw (cfPayloadFor frontendUrl orderId order) with
        | err status data => simp [hgw]
        | resp data =>
          cases hsid : data.payment_session_id <;> simp [hgw, hsid]

/-- The document update written by a successful verification (lines 348-351). -/
def confirmOrder (o : Order) : Order :=
  { o with paymentStatus := PaymentStatus.PAID, status := "Confirmed" }

theorem verifyPayment_paid_eq (db : DB) (gw : OrderId → VPGateway)
    (user : AuthUser) (oid : OrderId)
    (h : gw oid = VPGateway.resp (some "PAID")) :
    verifyPayment db gw user oid =
      ({ db with orders := findByIdAndUpdate db.orders oid confirmOrder },
        VPResult.confirmed) := by
  unfold verifyPayment
  rw [h]
  rfl

theorem verifyPayment_not_paid_eq (db : DB) (gw : OrderId → VPGateway)
    (user : AuthUser) (oid : OrderId) (st : Option String)
    (h : gw oid = VPGateway.resp st) (hst : st ≠ some "PAID") :
    verifyPayment db gw user oid = (db, VPResult.notConfirmed) := by
  unfold verifyPayment
  rw [h]
  simp [hst]

theorem verifyPayment_err_eq (db : DB) (gw : OrderId → VPGateway)
    (user : AuthUser) (oid : OrderId) (h : gw oid = VPGateway.err) :
    verifyPayment db gw user oid = (db, VPResult.error) := by
  unfold verifyPayment
  rw [h]

theorem updateFulfillmentStatus_admin (db : DB) (user : AuthUser)
    (oid : OrderId) (ns : String) (h : user.role = "admin") :
    updateFulfillmentStatus db user oid ns =
      ({ db with orders :=
          findByIdAndUpdate db.orders oid (fun o => { o with status := ns }) },
        true) := by
  unfold updateFulfillmentStatus
  simp [h]

theorem updateFulfillmentStatus_nonadmin (db : DB) (user : AuthUser)
    (oid : OrderId) (ns : String) (h : user.role ≠ "admin") :
    updateFulfillmentStatus db user oid ns = (db, false) := by
  unfold updateFulfillmentStatus
  simp [h]

theorem step_place (db : DB) (freshId : OrderId) (user : AuthUser)
    (body : PlaceOrderBody) :
    step db (Op.place freshId user body) =
      (match placeOrder db freshId user body with
        | .ok (db', _) => db'
        | .error _ => db) := rfl

theorem step_createSession (db : DB) (frontendUrl : String)
    (gw : CFPayload → GWResult) (user : AuthUser) (oid : OrderId) :
    step db (Op.createSession frontendUrl gw user oid) =
      (createPaymentSession db frontendUrl gw user oid).1 := rfl

theorem step_verify (db : DB) (gw : OrderId → VPGateway) (user : AuthUser)
    (oid : OrderId) :
    step db (Op.verify gw user oid) = (verifyPayment db gw user oid).1 := rfl

theorem step_updateStatus (db : DB) (user : AuthUser) (oid : OrderId)
    (ns : String) :
    step db (Op.updateStatus user oid ns) =
      (updateFulfillmentStatus db user oid ns).1 := rfl

/-- A single lifecycle operation never moves a stored order's
`paymentStatus` away from PAID. -/
theorem step_paid_preserved (db : DB) (op : Op) (oid : OrderId) (o : Order)
    (ho : findById db.orders oid = some o)
    (hp : o.paymentStatus = PaymentStatus.PAID) :
    ∃ o', findById (step db op).orders oid = some o'
      ∧ o'.paymentStatus = PaymentStatus.PAID := by
  cases op with
  | place freshId user body =>
    rw [step_place]
    cases hres : placeOrder db freshId user body with
    | error e => exact ⟨o, ho, hp⟩
    | ok p =>
      obtain ⟨db', newO⟩ := p
      rw [placeOrder_ok_shape db freshId user body db' newO hres]
      exact ⟨o, findById_append_left _ _ _ _ ho, hp⟩
  | createSession frontendUrl gw user oid2 =>
    rw [step_createSession, createPaymentSession_fst]
    exact ⟨o, ho, hp⟩
  | verify gw user oid2 =>
    rw [step_verify]
    cases hgw : gw oid2 with
    | err =>
      rw [verifyPayment_err_eq db gw user oid2 hgw]
      exact ⟨o, ho, hp⟩
    | resp st =>
      by_cases hst : st = some "PAID"
      · subst hst
        rw [verifyPayment_paid_eq db gw user oid2 hgw]
        by_cases hoid : oid = oid2
        · subst hoid
          refine ⟨confirmOrder o, ?_, rfl⟩
          show findById (findByIdAndUpdate db.orders oid confirmOrder) oid = _
          rw [findById_update, if_pos rfl, ho]
          rfl
        · refine ⟨o, ?_, hp⟩
          show findById (findByIdAndUpdate db.orders oid2 confirmOrder) oid = _
          rw [findById_update, if_neg hoid]
          exact ho
      · rw [verifyPayment_not_paid_eq db gw user oid2 st hgw hst]
        exact ⟨o, ho, hp⟩
  | updateStatus user oid2 newStatus =>
    rw [step_updateStatus]
    by_cases hrole : user.role = "admin"
    · rw [updateFulfillmentStatus_admin db user oid2 newStatus hrole]
      by_cases hoid : oid = oid2
      · subst hoid
        refine ⟨{ o with status := newStatus }, ?_, hp⟩
        show findById (findByIdAndUpdate db.orders oid
          (fun x => { x with status := newStatus })) oid
          = some { o with status := newStatus }
        rw [findById_update, if_pos rfl, ho]
        rfl
      · refine ⟨o, ?_, hp⟩
        show findById (findByIdAndUpdate db.orders oid2
          (fun x => { x with status := newStatus })) oid = some o
        rw [findById_update, if_neg hoid]
        exact ho
    · rw [updateFulfillmentStatus_nonadmin db user oid2 newStatus hrole]
      exact ⟨o, ho, hp⟩

/-- Across any run of lifecycle operations, PAID is preserved. -/
theorem run_paid_preserved (ops : List Op) :
    ∀ db oid o, findById db.orders oid = some o →
      o.paymentStatus = PaymentStatus.PAID →
      ∃ o', findById (run db ops).orders oid = some o'
        ∧ o'.paymentStatus = PaymentStatus.PAID := by
  induction ops with
  | nil => exact fun db oid o ho hp => ⟨o, ho, hp⟩
  | cons op ops ih =>
    intro db oid o ho hp
    obtain ⟨o', h1, h2⟩ := step_paid_preserved db op oid o ho hp
    exact ih (step db op) oid o' h1 h2

/-- The only single operation that moves a stored order from PENDING to PAID
is a verification during which the gateway reported "PAID" for that order. -/
theorem step_pending_to_paid (db : DB) (op : Op) (oid : OrderId) (o o' : Order)
    (ho : findById db.orders oid = some o)
    (ho' : findById (step db op).orders oid = some o')
    (hpend : o.paymentStatus = PaymentStatus.PENDING)
    (hpaid : o'.paymentStatus = PaymentStatus.PAID) :
    ∃ gw user, op = Op.verify gw user oid
      ∧ gw oid = VPGateway.resp (some "PAID") := by
  cases op with
  | place freshId user body =>
    rw [step_place] at ho'
    cases hres : placeOrder db freshId user body with
    | error e =>
      rw [hres, ho] at ho'
      cases ho'
      rw [hpend] at hpaid
      exact absurd hpaid (by simp)
    | ok p =>
      obtain ⟨db', newO⟩ := p
      rw [hres, placeOrder_ok_shape db freshId user body db' newO hres] at ho'
      rw [findById_append_left _ _ _ _ ho] at ho'
      cases ho'
      rw [hpend] at hpaid
      exact absurd hpaid (by simp)
  | createSession frontendUrl gw user oid2 =>
    rw [step_createSession, createPaymentSession_fst, ho] at ho'
    cases ho'
    rw [hpend] at hpaid
    exact absurd hpaid (by simp)
  | verify gw user oid2 =>
    rw [step_verify] at ho'
    cases hgw : gw oid2 with
    | err =>
      rw [verifyPayment_err_eq db gw user oid2 hgw, ho] at ho'
      cases ho'
      rw [hpend] at hpaid
      exact absurd hpaid (by simp)
    | resp st =>
      by_cases hst : st = some "PAID"
      · subst hst
        by_cases hoid : oid = oid2
        · subst hoid
          exact ⟨gw, user, rfl, hgw⟩
        · rw [verifyPayment_paid_eq db gw user oid2 hgw] at ho'
          have : findById (findByIdAndUpdate db.orders oid2 confirmOrder) oid
              = findById db.orders oid := by
            rw [findById_update, if_neg hoid]
          rw [this, ho] at ho'
          cases ho'
          rw [hpend] at hpaid
          exact absurd hpaid (by simp)
      · rw [verifyPayment_not_paid_eq db gw user oid2 st hgw hst, ho] at ho'
        cases ho'
        rw [hpend] at hpaid
        exact absurd hpaid (by simp)
  | updateStatus user oid2 newStatus =>
    rw [step_updateStatus] at ho'
    by_cases hrole : user.role = "admin"
    · rw [updateFulfillmentStatus_admin db user oid2 newStatus hrole] at ho'
      have hupd : findById
          (findByIdAndUpdate db.orders oid2 (fun x => { x with status := newStatus })) oid
          = if oid = oid2 then (findById db.orders oid).map
              (fun x => { x with status := newStatus })
            else findById db.orders oid := findById_update _ _ _ _
      by_cases hoid : oid = oid2
      · rw [hupd, if_pos hoid, ho] at ho'
        cases ho'
        rw [show ({ o with status := newStatus } : Order).paymentStatus
            = o.paymentStatus from rfl, hpend] at hpaid
        exact absurd hpaid (by simp)
      · rw [hupd, if_neg hoid, ho] at ho'
        cases ho'
        rw [hpend] at hpaid
        exact absurd hpaid (by simp)
    · rw [updateFulfillmentStatus_nonadmin db user oid2 newStatus hrole, ho] at ho'
      cases ho'
      rw [hpend] at hpaid
      exact absurd hpaid (by simp)

theorem createPaymentSession_none_eq (db : DB) (frontendUrl : String)
    (gw : CFPayload → GWResult) (user : AuthUser) (oid : OrderId)
    (h : findById db.orders oid = none) :
    createPaymentSession db frontendUrl gw user oid
      = (db, CPSResult.notFound, []) := by
  unfold createPaymentSession
  rw [h]

theorem createPaymentSession_some_eq (db : DB) (frontendUrl : String)
    (gw : CFPayload → GWResult) (user : AuthUser) (oid : OrderId) (o : Order)
    (h : findById db.orders oid = some o) :
    createPaymentSession db frontendUrl gw user oid =
      (if o.paymentMethod ≠ PaymentMethod.ONLINE then
        (db, CPSResult.invalidMethod, [])
      else if phoneFalsy o.shippingAddress.phone
          ∨ (o.shippingAddress.phone.getD "").length ≠ 10 then
        (db, CPSResult.invalidPhone, [])
      else
        match gw (cfPayloadFor frontendUrl oid o) with
        | .err _ data =>
          (db, CPSResult.gatewayError data, [cfPayloadFor frontendUrl oid o])
        | .resp data =>
          match data.payment_session_id with
          | none =>
            (db, CPSResult.gatewayNoSession data, [cfPayloadFor frontendUrl oid o])
          | some sid =>
            (db, CPSResult.ok sid data.order_id, [cfPayloadFor frontendUrl oid o])) := by
  unfold createPaymentSession
  rw [h]

/-! ### Sample data for witnesses -/

def sampleUser : AuthUser := ⟨"u", "u@example.com", "user"⟩

def sampleAddress : Address :=
  ⟨"N", "1 Street", "City", "State", "00001", some "9876543210"⟩

def emptyDB : DB := ⟨[], []⟩

def c1Body : PlaceOrderBody :=
  { items := some [⟨1, "a", 2, 100, "i"⟩, ⟨2, "b", 1, 50, "j"⟩],
    address := sampleAddress,
    paymentMethod := some PaymentMethod.COD,
    clientTotal := some 9999 }

/-! ### Claims -/

/-- C1: for every `placeOrder` call with a non-empty item list and a payment
method present, the persisted order's `totalAmount` is the sum over the
supplied line items of quantity times unit price, exactly, and the persisted
`paymentStatus` is PENDING whether `paymentMethod` is COD or ONLINE; the
caller-supplied total field of the body cannot influence the call. -/
theorem placeOrder_total_is_server_computed_and_pending (db : DB)
    (freshId : OrderId) (user : AuthUser) (body : PlaceOrderBody)
    (items : List OrderItem) (pm : PaymentMethod)
    (hitems : body.items = some items) (hne : items ≠ [])
    (hpm : body.paymentMethod = some pm) :
    ∃ o, placeOrder db freshId user body
        = .ok ({ db with orders := db.orders ++ [(freshId, o)] }, o)
      ∧ o.totalAmount = itemsTotal items
      ∧ o.paymentStatus = PaymentStatus.PENDING
      ∧ ∀ t, placeOrder db freshId user { body with clientTotal := t }
          = placeOrder db freshId user body := by
  have hie : items.isEmpty = false := by
    cases items with
    | nil => exact absurd rfl hne
    | cons a l => rfl
  refine ⟨{ userEmail := user.email, items := items,
            totalAmount := itemsTotal items,
            shippingAddress := body.address, paymentMethod := pm,
            paymentStatus :=
              if pm = PaymentMethod.COD then PaymentStatus.PENDING
              else PaymentStatus.PENDING,
            status := "Processing" }, ?_, rfl, ite_self _, fun t => rfl⟩
  simp [placeOrder, hitems, hpm, hie]

/-- C1 witness: a COD order of two line items (2 × 100 and 1 × 50) is
persisted with total 250 and PENDING status, ignoring the client-sent
total 9999. -/
theorem placeOrder_total_is_server_computed_and_pending_witness :
    itemsTotal [⟨1, "a", 2, 100, "i"⟩, ⟨2, "b", 1, 50, "j"⟩] = 250
    ∧ ∃ o, placeOrder emptyDB 1 sampleUser c1Body
        = .ok ({ emptyDB with orders := emptyDB.orders ++ [(1, o)] }, o)
      ∧ o.totalAmount = itemsTotal [⟨1, "a", 2, 100, "i"⟩, ⟨2, "b", 1, 50, "j"⟩]
      ∧ o.paymentStatus = PaymentStatus.PENDING
      ∧ ∀ t, placeOrder emptyDB 1 sampleUser { c1Body with clientTotal := t }
          = placeOrder emptyDB 1 sampleUser c1Body :=
  ⟨by decide,
   placeOrder_total_is_server_computed_and_pending emptyDB 1 sampleUser c1Body
     [⟨1, "a", 2, 100, "i"⟩, ⟨2, "b", 1, 50, "j"⟩]
     PaymentMethod.COD rfl (by decide) rfl⟩

/-- C9: `placeOrder` computes `totalAmount` purely from the caller-supplied
`price` and `quantity` fields: the same persisted order results for any two
product collections (the Product store is never consulted), and the call
succeeds with no constraint on the signs of quantities or prices, persisting
whatever total results. -/
theorem placeOrder_ignores_product_store (ps ps' : List Product)
    (os : OrderStore) (freshId : OrderId) (user : AuthUser)
    (body : PlaceOrderBody) (items : List OrderItem) (pm : PaymentMethod)
    (hitems : body.items = some items) (hne : items ≠ [])
    (hpm : body.paymentMethod = some pm) :
    ∃ o, o.totalAmount = itemsTotal items
      ∧ placeOrder ⟨ps, os⟩ freshId user body
          = .ok (⟨ps, os ++ [(freshId, o)]⟩, o)
      ∧ placeOrder ⟨ps', os⟩ freshId user body
          = .ok (⟨ps', os ++ [(freshId, o)]⟩, o) := by
  have hie : items.isEmpty = false := by
    cases items with
    | nil => exact absurd rfl hne
    | cons a l => rfl
  refine ⟨{ userEmail := user.email, items := items,
            totalAmount := itemsTotal items,
            shippingAddress := body.address, paymentMethod := pm,
            paymentStatus :=
              if pm = PaymentMethod.COD then PaymentStatus.PENDING
              else PaymentStatus.PENDING,
            status := "Processing" }, rfl, ?_, ?_⟩ <;>
    simp [placeOrder, hitems, hpm, hie]

/-- C9 witness: with a line item of quantity 0 and one of negative quantity,
the order is still persisted — identically for two different product
stores — with the negative total −21. -/
theorem placeOrder_ignores_product_store_witness :
    itemsTotal [⟨1, "a", 0, 5, "i"⟩, ⟨2, "b", -3, 7, "j"⟩] = -21
    ∧ ∃ o, o.totalAmount = itemsTotal [⟨1, "a", 0, 5, "i"⟩, ⟨2, "b", -3, 7, "j"⟩]
      ∧ placeOrder ⟨[⟨7000, "p", ["u"], "c", 10, 20, true⟩], []⟩ 2 sampleUser
          { items := some [⟨1, "a", 0, 5, "i"⟩, ⟨2, "b", -3, 7, "j"⟩],
            address := sampleAddress,
            paymentMethod := some PaymentMethod.ONLINE,
            clientTotal := none }
          = .ok (⟨[⟨7000, "p", ["u"], "c", 10, 20, true⟩], [] ++ [(2, o)]⟩, o)
      ∧ placeOrder ⟨[], []⟩ 2 sampleUser
          { items := some [⟨1, "a", 0, 5, "i"⟩, ⟨2, "b", -3, 7, "j"⟩],
            address := sampleAddress,
            paymentMethod := some PaymentMethod.ONLINE,
            clientTotal := none }
          = .ok (⟨[], [] ++ [(2, o)]⟩, o) :=
  ⟨by decide,
   placeOrder_ignores_product_store [⟨7000, "p", ["u"], "c", 10, 20, true⟩] []
     [] 2 sampleUser
     { items := some [⟨1, "a", 0, 5, "i"⟩, ⟨2, "b", -3, 7, "j"⟩],
       address := sampleAddress,
       paymentMethod := some PaymentMethod.ONLINE,
       clientTotal := none }
     [⟨1, "a", 0, 5, "i"⟩, ⟨2, "b", -3, 7, "j"⟩]
     PaymentMethod.ONLINE rfl (by decide) rfl⟩

/-- C10: neither `createPaymentSession` nor `verifyPayment` reads the
authenticated caller: any two callers, of any identity and role, invoking
either operation on the same order id against the same store and gateway get
the identical result and leave the identical store. -/
theorem payment_ops_ignore_caller_identity (db : DB) (frontendUrl : String)
    (gwc : CFPayload → GWResult) (gwv : OrderId → VPGateway)
    (u1 u2 : AuthUser) (oid : OrderId) :
    createPaymentSession db frontendUrl gwc u1 oid
        = createPaymentSession db frontendUrl gwc u2 oid
    ∧ verifyPayment db gwv u1 oid = verifyPayment db gwv u2 oid :=
  ⟨rfl, rfl⟩

/-- C2: `verifyPayment` confirms and updates the stored order (PAID /
"Confirmed") exactly when the gateway reports PAID; on any other gateway
status it reports not-confirmed and leaves the store untouched; a stored
order's `paymentStatus` becomes PAID only if the gateway reported PAID. -/
theorem verifyPayment_follows_gateway (db : DB) (gw : OrderId → VPGateway)
    (user : AuthUser) (oid : OrderId) :
    (gw oid = VPGateway.resp (some "PAID") →
      (verifyPayment db gw user oid).2 = VPResult.confirmed
      ∧ ∀ o, findById db.orders oid = some o →
          findById (verifyPayment db gw user oid).1.orders oid
            = some { o with paymentStatus := PaymentStatus.PAID,
                            status := "Confirmed" })
    ∧ (∀ st, gw oid = VPGateway.resp st → st ≠ some "PAID" →
        verifyPayment db gw user oid = (db, VPResult.notConfirmed))
    ∧ (gw oid = VPGateway.err →
        verifyPayment db gw user oid = (db, VPResult.error))
    ∧ (∀ o o', findById db.orders oid = some o →
        findById (verifyPayment db gw user oid).1.orders oid = some o' →
        o'.paymentStatus = PaymentStatus.PAID →
        o.paymentStatus ≠ PaymentStatus.PAID →
        gw oid = VPGateway.resp (some "PAID")) := by
  refine ⟨?_, ?_, ?_, ?_⟩
  · intro h
    rw [verifyPayment_paid_eq db gw user oid h]
    refine ⟨rfl, ?_⟩
    intro o ho
    show findById (findByIdAndUpdate db.orders oid confirmOrder) oid = _
    rw [findById_update, if_pos rfl, ho]
    rfl
  · intro st h hst
    exact verifyPayment_not_paid_eq db gw user oid st h hst
  · exact verifyPayment_err_eq db gw user oid
  · intro o o' ho ho' hpaid hne
    cases hgw : gw oid with
    | err =>
      rw [verifyPayment_err_eq db gw user oid hgw] at ho'
      dsimp only at ho'
      rw [ho] at ho'
      injection ho' with h
      subst h
      exact absurd hpaid hne
    | resp st =>
      by_cases hst : st = some "PAID"
      · rw [hst]
      · rw [verifyPayment_not_paid_eq db gw user oid st hgw hst] at ho'
        dsimp only at ho'
        rw [ho] at ho'
        injection ho' with h
        subst h
        exact absurd hpaid hne

/-- C2 witness: with the gateway reporting PAID for order 3, verification
confirms and re-reads the order as PAID/"Confirmed"; with the gateway
reporting "ACTIVE", verification reports not-confirmed and the store is
unchanged. -/
theorem verifyPayment_follows_gateway_witness :
    ((verifyPayment
        ⟨[], [(3, { userEmail := "u@example.com", items := [],
                    totalAmount := 250, shippingAddress := sampleAddress,
                    paymentMethod := PaymentMethod.ONLINE,
                    paymentStatus := PaymentStatus.PENDING,
                    status := "Processing" })]⟩
        (fun _ => VPGateway.resp (some "PAID")) sampleUser 3).2
      = VPResult.confirmed)
    ∧ verifyPayment
        ⟨[], [(3, { userEmail := "u@example.com", items := [],
                    totalAmount := 250, shippingAddress := sampleAddress,
                    paymentMethod := PaymentMethod.ONLINE,
                    paymentStatus := PaymentStatus.PENDING,
                    status := "Processing" })]⟩
        (fun _ => VPGateway.resp (some "ACTIVE")) sampleUser 3
      = (⟨[], [(3, { userEmail := "u@example.com", items := [],
                     totalAmount := 250, shippingAddress := sampleAddress,
                     paymentMethod := PaymentMethod.ONLINE,
                     paymentStatus := PaymentStatus.PENDING,
                     status := "Processing" })]⟩, VPResult.notConfirmed) :=
  ⟨((verifyPayment_follows_gateway
      ⟨[], [(3, { userEmail := "u@example.com", items := [],
                  totalAmount := 250, shippingAddress := sampleAddress,
                  paymentMethod := PaymentMethod.ONLINE,
                  paymentStatus := PaymentStatus.PENDING,
                  status := "Processing" })]⟩
      (fun _ => VPGateway.resp (some "PAID")) sampleUser 3).1 rfl).1,
   (verifyPayment_follows_gateway
      ⟨[], [(3, { userEmail := "u@example.com", items := [],
                  totalAmount := 250, shippingAddress := sampleAddress,
                  paymentMethod := PaymentMethod.ONLINE,
                  paymentStatus := PaymentStatus.PENDING,
                  status := "Processing" })]⟩
      (fun _ => VPGateway.resp (some "ACTIVE")) sampleUser 3).2.1
     (some "ACTIVE") rfl (by decide)⟩

/-- C3: when the gateway reports PAID for an existing order, verifying twice
in a row confirms both times, ends with the stored `paymentStatus` equal to
PAID, and neither invocation takes the throw path (the error result arises
only when the gateway query itself rejects). -/
theorem verifyPayment_idempotent_after_paid (db : DB)
    (gw : OrderId → VPGateway) (user user' : AuthUser) (oid : OrderId)
    (o : Order) (hgw : gw oid = VPGateway.resp (some "PAID"))
    (ho : findById db.orders oid = some o) :
    (verifyPayment db gw user oid).2 = VPResult.confirmed
    ∧ (verifyPayment (verifyPayment db gw user oid).1 gw user' oid).2
        = VPResult.confirmed
    ∧ ∃ o', findById
          (verifyPayment (verifyPayment db gw user oid).1 gw user' oid).1.orders
          oid = some o'
        ∧ o'.paymentStatus = PaymentStatus.PAID := by
  rw [verifyPayment_paid_eq db gw user oid hgw]
  rw [verifyPayment_paid_eq _ gw user' oid hgw]
  refine ⟨rfl, rfl, confirmOrder (confirmOrder o), ?_, rfl⟩
  dsimp only
  rw [findById_update, if_pos rfl, findById_update, if_pos rfl, ho]
  rfl

/-- C3 witness: for a concrete PENDING order 3 and a gateway constantly
reporting PAID, both invocations confirm and the stored status ends PAID. -/
theorem verifyPayment_idempotent_after_paid_witness :
    ((verifyPayment
        ⟨[], [(3, { userEmail := "u@example.com", items := [],
                    totalAmount := 100, shippingAddress := sampleAddress,
                    paymentMethod := PaymentMethod.ONLINE,
                    paymentStatus := PaymentStatus.PENDING,
                    status := "Processing" })]⟩
        (fun _ => VPGateway.resp (some "PAID")) sampleUser 3).2
      = VPResult.confirmed)
    ∧ ((verifyPayment
        (verifyPayment
          ⟨[], [(3, { userEmail := "u@example.com", items := [],
                      totalAmount := 100, shippingAddress := sampleAddress,
                      paymentMethod := PaymentMethod.ONLINE,
                      paymentStatus := PaymentStatus.PENDING,
                      status := "Processing" })]⟩
          (fun _ => VPGateway.resp (some "PAID")) sampleUser 3).1
        (fun _ => VPGateway.resp (some "PAID")) sampleUser 3).2
      = VPResult.confirmed)
    ∧ ∃ o', findById
          (verifyPayment
            (verifyPayment
              ⟨[], [(3, { userEmail := "u@example.com", items := [],
                          totalAmount := 100, shippingAddress := sampleAddress,
                          paymentMethod := PaymentMethod.ONLINE,
                          paymentStatus := PaymentStatus.PENDING,
                          status := "Processing" })]⟩
              (fun _ => VPGateway.resp (some "PAID")) sampleUser 3).1
            (fun _ => VPGateway.resp (some "PAID")) sampleUser 3).1.orders 3
        = some o'
      ∧ o'.paymentStatus = PaymentStatus.PAID :=
  verifyPayment_idempotent_after_paid
    ⟨[], [(3, { userEmail := "u@example.com", items := [],
                totalAmount := 100, shippingAddress := sampleAddress,
                paymentMethod := PaymentMethod.ONLINE,
                paymentStatus := PaymentStatus.PENDING,
                status := "Processing" })]⟩
    (fun _ => VPGateway.resp (some "PAID")) sampleUser sampleUser 3
    { userEmail := "u@example.com", items := [],
      totalAmount := 100, shippingAddress := sampleAddress,
      paymentMethod := PaymentMethod.ONLINE,
      paymentStatus := PaymentStatus.PENDING,
      status := "Processing" }
    rfl (by decide)

/-- C8: when the gateway reports PAID for an order id absent from the store,
`verifyPayment` still answers confirmed: the update is a silent no-op, no
not-found error exists on this path, and the caller-visible result is the
same as for a genuinely stored order. -/
theorem verifyPayment_confirms_unknown_order (db : DB)
    (gw : OrderId → VPGateway) (user : AuthUser) (oid : OrderId)
    (hmiss : findById db.orders oid = none)
    (hgw : gw oid = VPGateway.resp (some "PAID")) :
    verifyPayment db gw user oid = (db, VPResult.confirmed)
    ∧ ∀ db' : DB, (verifyPayment db' gw user oid).2 = VPResult.confirmed := by
  refine ⟨?_, fun db' => by rw [verifyPayment_paid_eq db' gw user oid hgw]⟩
  rw [verifyPayment_paid_eq db gw user oid hgw,
      findById_update_none db.orders oid confirmOrder hmiss]

/-- C8 witness: an empty store and a gateway reporting PAID for the unknown
order 42 — verification still reports success and the store is unchanged. -/
theorem verifyPayment_confirms_unknown_order_witness :
    verifyPayment emptyDB (fun _ => VPGateway.resp (some "PAID")) sampleUser 42
      = (emptyDB, VPResult.confirmed)
    ∧ ∀ db' : DB, (verifyPayment db'
        (fun _ => VPGateway.resp (some "PAID")) sampleUser 42).2
      = VPResult.confirmed :=
  verifyPayment_confirms_unknown_order emptyDB
    (fun _ => VPGateway.resp (some "PAID")) sampleUser 42 rfl rfl

def adminUser : AuthUser := ⟨"a", "a@example.com", "admin"⟩

/-- C4: across every sequence of lifecycle operations (`placeOrder`,
`createPaymentSession`, `verifyPayment`, `updateFulfillmentStatus`) a stored
order that is PAID stays PAID — the status never reverses to PENDING — and
the only single operation that moves a stored order from PENDING to PAID is
a `verifyPayment` for that order during which the gateway reported PAID. -/
theorem paymentStatus_monotone_pending_to_paid :
    (∀ (db : DB) (ops : List Op) (oid : OrderId) (o : Order),
      findById db.orders oid = some o →
      o.paymentStatus = PaymentStatus.PAID →
      ∃ o', findById (run db ops).orders oid = some o'
        ∧ o'.paymentStatus = PaymentStatus.PAID)
    ∧ (∀ (db : DB) (op : Op) (oid : OrderId) (o o' : Order),
      findById db.orders oid = some o →
      findById (step db op).orders oid = some o' →
      o.paymentStatus = PaymentStatus.PENDING →
      o'.paymentStatus = PaymentStatus.PAID →
      ∃ gw user, op = Op.verify gw user oid
        ∧ gw oid = VPGateway.resp (some "PAID")) :=
  ⟨fun db ops oid o ho hp => run_paid_preserved ops db oid o ho hp,
   fun db op oid o o' ho ho' hpend hpaid =>
     step_pending_to_paid db op oid o o' ho ho' hpend hpaid⟩

/-- C4 witness: a PAID order 5 survives an admin status overwrite followed by
a verification whose gateway reports "FAILED"; and moving the concrete
PENDING order 3 to PAID in one step exhibits its operation as a
verification of order 3 with a PAID gateway report. -/
theorem paymentStatus_monotone_pending_to_paid_witness :
    (∃ o', findById
        (run ⟨[], [(5, { userEmail := "u@example.com", items := [],
                         totalAmount := 10, shippingAddress := sampleAddress,
                         paymentMethod := PaymentMethod.ONLINE,
                         paymentStatus := PaymentStatus.PAID,
                         status := "Confirmed" })]⟩
          [Op.updateStatus adminUser 5 "Shipped",
           Op.verify (fun _ => VPGateway.resp (some "FAILED")) sampleUser 5]).orders
        5 = some o'
      ∧ o'.paymentStatus = PaymentStatus.PAID)
    ∧ ∃ gw user,
        Op.verify (fun _ => VPGateway.resp (some "PAID")) sampleUser 3
          = Op.verify gw user 3
        ∧ gw 3 = VPGateway.resp (some "PAID") :=
  ⟨paymentStatus_monotone_pending_to_paid.1
    ⟨[], [(5, { userEmail := "u@example.com", items := [],
                totalAmount := 10, shippingAddress := sampleAddress,
                paymentMethod := PaymentMethod.ONLINE,
                paymentStatus := PaymentStatus.PAID,
                status := "Confirmed" })]⟩
    [Op.updateStatus adminUser 5 "Shipped",
     Op.verify (fun _ => VPGateway.resp (some "FAILED")) sampleUser 5]
    5 _ rfl rfl,
   paymentStatus_monotone_pending_to_paid.2
    ⟨[], [(3, { userEmail := "u@example.com", items := [],
                totalAmount := 10, shippingAddress := sampleAddress,
                paymentMethod := PaymentMethod.ONLINE,
                paymentStatus := PaymentStatus.PENDING,
                status := "Processing" })]⟩
    (Op.verify (fun _ => VPGateway.resp (some "PAID")) sampleUser 3)
    3
    { userEmail := "u@example.com", items := [],
      totalAmount := 10, shippingAddress := sampleAddress,
      paymentMethod := PaymentMethod.ONLINE,
      paymentStatus := PaymentStatus.PENDING,
      status := "Processing" }
    { userEmail := "u@example.com", items := [],
      totalAmount := 10, shippingAddress := sampleAddress,
      paymentMethod := PaymentMethod.ONLINE,
      paymentStatus := PaymentStatus.PAID,
      status := "Confirmed" }
    rfl rfl rfl rfl⟩

def onlineOrderDB : DB :=
  ⟨[], [(1, { userEmail := "u@example.com", items := [],
              totalAmount := 100, shippingAddress := sampleAddress,
              paymentMethod := PaymentMethod.ONLINE,
              paymentStatus := PaymentStatus.PENDING,
              status := "Processing" })]⟩

def lettersPhoneDB : DB :=
  ⟨[], [(1, { userEmail := "u@example.com", items := [],
              totalAmount := 100,
              shippingAddress :=
                ⟨"N", "1 Street", "City", "State", "00001",
                  some "abcdefghij"⟩,
              paymentMethod := PaymentMethod.ONLINE,
              paymentStatus := PaymentStatus.PENDING,
              status := "Processing" })]⟩

def shortPhoneDB : DB :=
  ⟨[], [(1, { userEmail := "u@example.com", items := [],
              totalAmount := 100,
              shippingAddress :=
                ⟨"N", "1 Street", "City", "State", "00001", some "12345"⟩,
              paymentMethod := PaymentMethod.ONLINE,
              paymentStatus := PaymentStatus.PENDING,
              status := "Processing" })]⟩

/-- C5 counterexample. First half: gateway rejections with upstream status
500 and with upstream status 502 (same body) produce identical caller-visible
outputs, so the error surfaced to the caller does not wrap the upstream
status code. Second half: for an ONLINE order whose stored phone is
"abcdefghij" — not a digit string, hence malformed in the claim's sense — the
handler does not fail with an invalid-state error: it posts one payload to
the gateway and succeeds. -/
theorem createPaymentSession_error_claim_counterexample :
    ((500 : Nat) ≠ 502
      ∧ createPaymentSession onlineOrderDB "https://shop.example"
          (fun _ => GWResult.err (some 500) (some ⟨none, none⟩)) sampleUser 1
        = createPaymentSession onlineOrderDB "https://shop.example"
          (fun _ => GWResult.err (some 502) (some ⟨none, none⟩)) sampleUser 1
      ∧ (createPaymentSession onlineOrderDB "https://shop.example"
          (fun _ => GWResult.err (some 500) (some ⟨none, none⟩)) sampleUser
          1).2.1
        = CPSResult.gatewayError (some ⟨none, none⟩))
    ∧ (("abcdefghij".data.all Char.isDigit) = false
      ∧ (createPaymentSession lettersPhoneDB "https://shop.example"
          (fun _ => GWResult.resp ⟨some "sess_5", some "cf_5"⟩) sampleUser
          1).2.1
        = CPSResult.ok "sess_5" (some "cf_5")
      ∧ (createPaymentSession lettersPhoneDB "https://shop.example"
          (fun _ => GWResult.resp ⟨some "sess_5", some "cf_5"⟩) sampleUser
          1).2.2.length = 1) :=
  ⟨⟨by decide, rfl, rfl⟩, ⟨by decide, rfl, rfl⟩⟩

/-- C5 amended: `createPaymentSession` fails with NotFoundError when the
order does not exist; with InvalidStateError when the method is not ONLINE or
the stored phone fails the handler's phone check (absent, empty, or of length
other than 10) — in these cases no gateway call is made; and with a
GatewayError wrapping the upstream response body (the upstream status code is
logged but not surfaced to the caller) when the external call fails or its
response omits a session token; at most one gateway call is ever made, never
a retry. -/
theorem createPaymentSession_error_spec_amended (db : DB)
    (frontendUrl : String) (gw : CFPayload → GWResult) (user : AuthUser)
    (oid : OrderId) :
    (findById db.orders oid = none →
      createPaymentSession db frontendUrl gw user oid
        = (db, CPSResult.notFound, []))
    ∧ (∀ o, findById db.orders oid = some o →
      o.paymentMethod ≠ PaymentMethod.ONLINE →
      createPaymentSession db frontendUrl gw user oid
        = (db, CPSResult.invalidMethod, []))
    ∧ (∀ o, findById db.orders oid = some o →
      o.paymentMethod = PaymentMethod.ONLINE →
      (phoneFalsy o.shippingAddress.phone
        ∨ (o.shippingAddress.phone.getD "").length ≠ 10) →
      createPaymentSession db frontendUrl gw user oid
        = (db, CPSResult.invalidPhone, []))
    ∧ (∀ o st data, findById db.orders oid = some o →
      o.paymentMethod = PaymentMethod.ONLINE →
      ¬(phoneFalsy o.shippingAddress.phone
        ∨ (o.shippingAddress.phone.getD "").length ≠ 10) →
      gw (cfPayloadFor frontendUrl oid o) = GWResult.err st data →
      createPaymentSession db frontendUrl gw user oid
        = (db, CPSResult.gatewayError data, [cfPayloadFor frontendUrl oid o]))
    ∧ (∀ o data, findById db.orders oid = some o →
      o.paymentMethod = PaymentMethod.ONLINE →
      ¬(phoneFalsy o.shippingAddress.phone
        ∨ (o.shippingAddress.phone.getD "").length ≠ 10) →
      gw (cfPayloadFor frontendUrl oid o) = GWResult.resp data →
      data.payment_session_id = none →
      createPaymentSession db frontendUrl gw user oid
        = (db, CPSResult.gatewayNoSession data,
            [cfPayloadFor frontendUrl oid o]))
    ∧ (createPaymentSession db frontendUrl gw user oid).2.2.length ≤ 1 := by
  refine ⟨fun h => createPaymentSession_none_eq db frontendUrl gw user oid h,
    ?_, ?_, ?_, ?_,
    createPaymentSession_calls_le_one db frontendUrl gw user oid⟩
  · intro o ho hm
    rw [createPaymentSession_some_eq db frontendUrl gw user oid o ho,
        if_pos hm]
  · intro o ho hm hph
    rw [createPaymentSession_some_eq db frontendUrl gw user oid o ho,
        if_neg (not_not_intro hm), if_pos hph]
  · intro o st data ho hm hph hgw
    rw [createPaymentSession_some_eq db frontendUrl gw user oid o ho,
        if_neg (not_not_intro hm), if_neg hph]
    simp only [hgw]
  · intro o data ho hm hph hgw hsid
    rw [createPaymentSession_some_eq db frontendUrl gw user oid o ho,
        if_neg (not_not_intro hm), if_neg hph]
    simp only [hgw, hsid]

/-- C5 amended witness: an unknown order id fails not-found; the spec's own
scenario (phone "12345") fails the phone check with no gateway call; a
gateway rejection with status 502 surfaces its body as the error, with
exactly the one payload posted. -/
theorem createPaymentSession_error_spec_amended_witness :
    (createPaymentSession emptyDB "https://shop.example"
        (fun _ => GWResult.resp ⟨none, none⟩) sampleUser 9
      = (emptyDB, CPSResult.notFound, []))
    ∧ (createPaymentSession shortPhoneDB "https://shop.example"
        (fun _ => GWResult.resp ⟨none, none⟩) sampleUser 1
      = (shortPhoneDB, CPSResult.invalidPhone, []))
    ∧ (createPaymentSession onlineOrderDB "https://shop.example"
        (fun _ => GWResult.err (some 502) (some ⟨none, none⟩)) sampleUser 1
      = (onlineOrderDB, CPSResult.gatewayError (some ⟨none, none⟩),
          [cfPayloadFor "https://shop.example" 1
            { userEmail := "u@example.com", items := [],
              totalAmount := 100, shippingAddress := sampleAddress,
              paymentMethod := PaymentMethod.ONLINE,
              paymentStatus := PaymentStatus.PENDING,
              status := "Processing" }])) :=
  ⟨(createPaymentSession_error_spec_amended emptyDB "https://shop.example"
      (fun _ => GWResult.resp ⟨none, none⟩) sampleUser 9).1 rfl,
   (createPaymentSession_error_spec_amended shortPhoneDB "https://shop.example"
      (fun _ => GWResult.resp ⟨none, none⟩) sampleUser 1).2.2.1
     _ rfl rfl (by decide),
   (createPaymentSession_error_spec_amended onlineOrderDB
      "https://shop.example"
      (fun _ => GWResult.err (some 502) (some ⟨none, none⟩)) sampleUser 1
      ).2.2.2.1
     _ (some 502) (some ⟨none, none⟩) rfl rfl (by decide) rfl⟩

/-- C6 counterexample: order 1 is ONLINE and stored with phone "abcdefghij" —
ten characters, none of them digits, so not "exactly 10 digits" — yet
`createPaymentSession` does not fail before the gateway: it posts a payload
and completes the session. -/
theorem createPaymentSession_phone_digits_counterexample :
    ("abcdefghij".data.all Char.isDigit) = false
    ∧ (createPaymentSession lettersPhoneDB "https://shop.example"
        (fun _ => GWResult.resp ⟨some "sess_6", some "cf_6"⟩) sampleUser 1).2.1
      = CPSResult.ok "sess_6" (some "cf_6")
    ∧ (createPaymentSession lettersPhoneDB "https://shop.example"
        (fun _ => GWResult.resp ⟨some "sess_6", some "cf_6"⟩) sampleUser
        1).2.2 ≠ [] :=
  ⟨by decide, rfl, by decide⟩

/-- C6 amended: the handler requires only that the stored phone be a present,
non-empty string of length exactly 10 — digits are not required: when the
phone is absent, empty, or of length other than 10 the call fails with
InvalidStateError before any gateway call, and whenever the phone is any
string of length 10 the handler proceeds to post exactly one payload to the
gateway. -/
theorem createPaymentSession_phone_length_only (db : DB)
    (frontendUrl : String) (gw : CFPayload → GWResult) (user : AuthUser)
    (oid : OrderId) (o : Order)
    (ho : findById db.orders oid = some o)
    (hm : o.paymentMethod = PaymentMethod.ONLINE) :
    ((phoneFalsy o.shippingAddress.phone
        ∨ (o.shippingAddress.phone.getD "").length ≠ 10) →
      createPaymentSession db frontendUrl gw user oid
        = (db, CPSResult.invalidPhone, []))
    ∧ (∀ p, o.shippingAddress.phone = some p → p.length = 10 →
      (createPaymentSession db frontendUrl gw user oid).2.2
        = [cfPayloadFor frontendUrl oid o]) := by
  refine ⟨?_, ?_⟩
  · intro hph
    rw [createPaymentSession_some_eq db frontendUrl gw user oid o ho,
        if_neg (not_not_intro hm), if_pos hph]
  · intro p hp hlen
    have hne : p ≠ "" := by
      intro h
      rw [h] at hlen
      exact absurd hlen (by decide)
    have hph : ¬(phoneFalsy o.shippingAddress.phone
        ∨ (o.shippingAddress.phone.getD "").length ≠ 10) := by
      rw [hp]
      simp [phoneFalsy, hlen, hne]
    rw [createPaymentSession_some_eq db frontendUrl gw user oid o ho,
        if_neg (not_not_intro hm), if_neg hph]
    cases hgw : gw (cfPayloadFor frontendUrl oid o) with
    | err st data => simp [hgw]
    | resp data => cases hsid : data.payment_session_id <;> simp [hgw, hsid]

/-- C6 amended witness: phone "12345" (length 5) fails before any gateway
call; phone "abcdefghij" (length 10, no digits) reaches the gateway with
exactly one posted payload. -/
theorem createPaymentSession_phone_length_only_witness :
    (createPaymentSession shortPhoneDB "https://shop.example"
        (fun _ => GWResult.resp ⟨some "s", some "c"⟩) sampleUser 1
      = (shortPhoneDB, CPSResult.invalidPhone, []))
    ∧ ((createPaymentSession lettersPhoneDB "https://shop.example"
        (fun _ => GWResult.resp ⟨some "s", some "c"⟩) sampleUser 1).2.2
      = [cfPayloadFor "https://shop.example" 1
          { userEmail := "u@example.com", items := [],
            totalAmount := 100,
            shippingAddress :=
              ⟨"N", "1 Street", "City", "State", "00001",
                some "abcdefghij"⟩,
            paymentMethod := PaymentMethod.ONLINE,
            paymentStatus := PaymentStatus.PENDING,
            status := "Processing" }]) :=
  ⟨(createPaymentSession_phone_length_only shortPhoneDB "https://shop.example"
      (fun _ => GWResult.resp ⟨some "s", some "c"⟩) sampleUser 1 _ rfl rfl).1
     (by decide),
   (createPaymentSession_phone_length_only lettersPhoneDB
      "https://shop.example"
      (fun _ => GWResult.resp ⟨some "s", some "c"⟩) sampleUser 1 _ rfl rfl).2
     "abcdefghij" rfl (by decide)⟩

/-- C7: on gateway success `createPaymentSession` returns the session token
and the gateway-assigned order id, and the stored database — in particular
every order's `paymentStatus` — is what it was before the call; indeed for
every gateway and order id the handler returns the store unmodified. -/
theorem createPaymentSession_success_no_mutation (db : DB)
    (frontendUrl : String) (gw : CFPayload → GWResult) (user : AuthUser)
    (oid : OrderId) (o : Order) (data : CFData) (sid : String)
    (ho : findById db.orders oid = some o)
    (hm : o.paymentMethod = PaymentMethod.ONLINE)
    (hph : ¬(phoneFalsy o.shippingAddress.phone
        ∨ (o.shippingAddress.phone.getD "").length ≠ 10))
    (hgw : gw (cfPayloadFor frontendUrl oid o) = GWResult.resp data)
    (hsid : data.payment_session_id = some sid) :
    createPaymentSession db frontendUrl gw user oid
        = (db, CPSResult.ok sid data.order_id,
            [cfPayloadFor frontendUrl oid o])
    ∧ ∀ (gw' : CFPayload → GWResult) (oid' : OrderId),
        (createPaymentSession db frontendUrl gw' user oid').1 = db := by
  refine ⟨?_,
    fun gw' oid' => createPaymentSession_fst db frontendUrl gw' user oid'⟩
  rw [createPaymentSession_some_eq db frontendUrl gw user oid o ho,
      if_neg (not_not_intro hm), if_neg hph]
  simp only [hgw, hsid]

/-- C7 witness: a successful session for the concrete ONLINE order 1 returns
the token and gateway order id and leaves the store exactly as it was. -/
theorem createPaymentSession_success_no_mutation_witness :
    (createPaymentSession onlineOrderDB "https://shop.example"
        (fun _ => GWResult.resp ⟨some "sess_7", some "cf_7"⟩) sampleUser 1
      = (onlineOrderDB, CPSResult.ok "sess_7" (some "cf_7"),
          [cfPayloadFor "https://shop.example" 1
            { userEmail := "u@example.com", items := [],
              totalAmount := 100, shippingAddress := sampleAddress,
              paymentMethod := PaymentMethod.ONLINE,
              paymentStatus := PaymentStatus.PENDING,
              status := "Processing" }]))
    ∧ ∀ (gw' : CFPayload → GWResult) (oid' : OrderId),
        (createPaymentSession onlineOrderDB "https://shop.example" gw'
          sampleUser oid').1 = onlineOrderDB :=
  createPaymentSession_success_no_mutation onlineOrderDB
    "https://shop.example"
    (fun _ => GWResult.resp ⟨some "sess_7", some "cf_7"⟩) sampleUser 1
    { userEmail := "u@example.com", items := [],
      totalAmount := 100, shippingAddress := sampleAddress,
      paymentMethod := PaymentMethod.ONLINE,
      paymentStatus := PaymentStatus.PENDING,
      status := "Processing" }
    ⟨some "sess_7", some "cf_7"⟩ "sess_7"
    rfl rfl (by decide) rfl rfl
